import Mathlib

/-!
Shallow embedding of the CrewAI dashboard WebSocket client
(`src/dashboard/js/websocket-client.js`, class `CrewAIDashboardClient`).

Modelling conventions:
* JS numbers are embedded as `ℚ` (no claim here depends on binary
  floating-point artefacts).
* A DOM text node whose content is produced by a formatting primitive is
  kept symbolic via the `Text` type below: `Text.fixed1pct q` stands for
  the string `q.toFixed(1) + "%"`, `Text.rounded q` for
  `String(Math.round(q))`, `Text.plain q` for `String(q)`.  The
  constructors record exactly which source expression produced the text.
* The DOM fragments the client reads and writes (agent cards keyed by
  `data-agent-id`, task cards keyed by `data-task-id` living in one of the
  four kanban columns, pipeline stages keyed by `data-stage`, and the
  metric elements `#tcr`, `#velocity`, `#total-agents`) are modelled as
  the view-model record `VM`.  The standard dashboard markup is assumed
  present (`#agent-grid`, the four `.kanban-column`s and the three metric
  elements exist).  Order of task cards inside one column is not tracked;
  a card's column index is.
* A JS field access that yields `undefined` is an `Option.none`; where the
  source interpolates such a value into a template string or attribute,
  JS produces the string "undefined", modelled by `optStr`.
* The absent method `this.updateSystemMetric` (the source defines only the
  plural `updateSystemMetrics`) makes the call at line 134 throw a
  `TypeError`; handlers that can throw return the thrown message
  alongside the state reached at the throw point.
-/

namespace WSClient

/-- Symbolic DOM text: which source expression produced the displayed
string.  `init` is whatever the static markup initially contained. -/
inductive Text where
  | init : Text
  | plain : ℚ → Text
  | fixed1pct : ℚ → Text
  | rounded : ℚ → Text
  deriving DecidableEq

/-- One agent card in `#agent-grid` (`createAgentCard` /
`updateAgentMetric`).  `tcr` is the value whose rendering
`tcr.toFixed(1)+"%"` fills `.agent-tcr`; `health` is the class chosen at
creation time (`healthy` iff tcr ≥ 80) and never updated afterwards. -/
structure AgentCard where
  tcr : ℚ
  health : String
  deriving DecidableEq

/-- One task card (`createTaskCard`): its `data-task-id` attribute, its
`className` and the kanban column index it currently sits in. -/
structure TaskCard where
  id : String
  cls : String
  column : Nat
  deriving DecidableEq

/-- One pipeline stage element (`handlePipelineUpdate`): `className` and
the `.stage-icon` text. -/
structure StageView where
  cls : String
  icon : String
  deriving DecidableEq

/-- The three system metric elements the client writes
(`#tcr`, `#velocity`, `#total-agents`). -/
structure SystemView where
  tcr : Text
  velocity : Text
  totalAgents : Text
  deriving DecidableEq

/-- The view model: the DOM state the client mutates. -/
structure VM where
  agents : List (String × AgentCard)
  tasks : List TaskCard
  stages : List (String × StageView)
  sys : SystemView
  deriving DecidableEq

/-- The metric fields of an agent entry that the client actually reads
(`updateAgentMetric` / `createAgentCard` read only
`task_completion_rate`). -/
structure AgentMetrics where
  task_completion_rate : Option ℚ
  deriving DecidableEq

/-- One entry of an `initial` event's `recent_tasks` list (the fields
`createTaskCard` reads). -/
structure TaskData where
  task_id : Option String
  status : Option String
  description : Option String
  agent : Option String
  duration : Option ℚ
  deriving DecidableEq

/-- A parsed inbound JSON message: the union of all fields the client
reads, each optional (absent ⇒ `undefined` in JS). -/
structure Msg where
  type : Option String := none
  agent_id : Option String := none
  task_completion_rate : Option ℚ := none
  task_id : Option String := none
  status : Option String := none
  description : Option String := none
  agent : Option String := none
  duration : Option ℚ := none
  stage : Option String := none
  system_tcr : Option ℚ := none
  system_velocity : Option ℚ := none
  total_agents : Option ℚ := none
  system_metrics : Option (List (String × ℚ)) := none
  agents : Option (List (String × AgentMetrics)) := none
  recent_tasks : Option (List TaskData) := none
  deriving DecidableEq

/-- A raw inbound frame: either text that `JSON.parse` rejects (throwing,
caught by `ws.onmessage`), or a parsed message object. -/
inductive Frame where
  | garbage : String → Frame
  | parsed : Msg → Frame
  deriving DecidableEq

/-- Interpolating a possibly-`undefined` JS value into a template string
or attribute: `undefined` prints as "undefined". -/
def optStr : Option String → String
  | some s => s
  | none => "undefined"

/-- Association-list lookup, first match wins (as `querySelector` returns
the first matching element in document order). -/
def lookupKey {α : Type} (l : List (String × α)) (k : String) : Option α :=
  match l with
  | [] => none
  | (k', v) :: t => if k' = k then some v else lookupKey t k

/-- Update the first entry with the given key. -/
def updateKey {α : Type} (l : List (String × α)) (k : String) (f : α → α) :
    List (String × α) :=
  match l with
  | [] => []
  | (k', v) :: t =>
      if k' = k then (k', f v) :: t else (k', v) :: updateKey t k f

/-- `createTaskCard`'s column choice: `columnIndex` starts at 0 and the
switch only reassigns it for the five known statuses. -/
def statusColumnIdx : Option String → Nat
  | some "backlog" => 0
  | some "in_progress" => 1
  | some "testing" => 2
  | some "done" => 3
  | some "failed" => 3
  | _ => 0

/-- `handleTaskUpdate`'s `targetColumn` switch: for an unknown status no
column is selected and the card is not moved. -/
def statusColumnOpt : Option String → Option Nat
  | some "backlog" => some 0
  | some "in_progress" => some 1
  | some "testing" => some 2
  | some "done" => some 3
  | some "failed" => some 3
  | _ => none

/-- `createTaskCard(taskData)`: builds a card with
`data-task-id = taskData.task_id`, `className = "task-card " + status`,
appended to the column `statusColumnIdx` selects. -/
def createTaskCard (td : TaskData) : TaskCard :=
  { id := optStr td.task_id
    cls := "task-card " ++ optStr td.status
    column := statusColumnIdx td.status }

/-- The task-data view of a whole message (`handleTaskUpdate` passes the
message itself to `createTaskCard`). -/
def msgTaskData (m : Msg) : TaskData :=
  { task_id := m.task_id
    status := m.status
    description := m.description
    agent := m.agent
    duration := m.duration }

/-- The agent-metrics view of a whole message (`handleMetricUpdate`
passes the message itself to `updateAgentMetric`). -/
def msgAgentMetrics (m : Msg) : AgentMetrics :=
  { task_completion_rate := m.task_completion_rate }

/-- `createAgentCard(agentId, metrics)`: `tcr = metrics.task_completion_rate || 0`,
health class `healthy` iff `tcr >= 80`, card appended to `#agent-grid`. -/
def createAgentCard (metrics : AgentMetrics) : AgentCard :=
  let tcr := metrics.task_completion_rate.getD 0
  { tcr := tcr
    health := if 80 ≤ tcr then "healthy" else "warning" }

/-- `updateAgentMetric(agentId, metrics)`: if no card with that
`data-agent-id` exists, create one; otherwise update its `.agent-tcr`
text only when `metrics.task_completion_rate !== undefined`. -/
def updateAgentMetric (agentId : String) (metrics : AgentMetrics) (vm : VM) :
    VM :=
  match lookupKey vm.agents agentId with
  | none => { vm with agents := vm.agents ++ [(agentId, createAgentCard metrics)] }
  | some _ =>
      match metrics.task_completion_rate with
      | some q =>
          { vm with agents := updateKey vm.agents agentId (fun c => { c with tcr := q }) }
      | none => vm

/-- `updateAgentMetrics(agents)`: per-entry upsert over the event's agents
map (a merge, not a replace). -/
def updateAgentMetrics (ags : List (String × AgentMetrics)) (vm : VM) : VM :=
  ags.foldl (fun v (e : String × AgentMetrics) => updateAgentMetric e.1 e.2 v) vm

/-- `updateRecentTasks(tasks)`: removes every task card from every kanban
column, then creates one card per event entry. -/
def updateRecentTasks (ts : List TaskData) (vm : VM) : VM :=
  { vm with tasks := ts.map createTaskCard }

/-- `updateSystemMetrics(metrics)`: for each key, writes the value as the
text of the element with that id when it exists.  The three metric
elements the model tracks are `tcr`, `velocity`, `total-agents`; writes
to other ids touch no modelled state. -/
def updateSystemMetrics (entries : List (String × ℚ)) (vm : VM) : VM :=
  entries.foldl
    (fun v (e : String × ℚ) =>
      if e.1 = "tcr" then { v with sys := { v.sys with tcr := Text.plain e.2 } }
      else if e.1 = "velocity" then
        { v with sys := { v.sys with velocity := Text.plain e.2 } }
      else if e.1 = "total-agents" then
        { v with sys := { v.sys with totalAgents := Text.plain e.2 } }
      else v)
    vm

/-- `handleInitialData(data)`: guarded by field presence, updates system
metrics, upserts agents, and fully replaces the task list. -/
def handleInitialData (m : Msg) (vm : VM) : VM :=
  let vm := match m.system_metrics with
    | some entries => updateSystemMetrics entries vm
    | none => vm
  let vm := match m.agents with
    | some ags => updateAgentMetrics ags vm
    | none => vm
  match m.recent_tasks with
  | some ts => updateRecentTasks ts vm
  | none => vm

/-- `handleSystemUpdate(data)`: each of the three fields is written only
when `!== undefined`; `system_tcr` renders as `toFixed(1)+"%"`,
`system_velocity` as `Math.round`, `total_agents` verbatim. -/
def handleSystemUpdate (m : Msg) (vm : VM) : VM :=
  let s := vm.sys
  let s := match m.system_tcr with
    | some q => { s with tcr := Text.fixed1pct q }
    | none => s
  let s := match m.system_velocity with
    | some q => { s with velocity := Text.rounded q }
    | none => s
  let s := match m.total_agents with
    | some q => { s with totalAgents := Text.plain q }
    | none => s
  { vm with sys := s }

/-- First task card with the given `data-task-id` (document order). -/
def findTask : List TaskCard → String → Option TaskCard
  | [], _ => none
  | c :: t, tid => if c.id = tid then some c else findTask t tid

/-- Update the first card with the given id: set its class, and its
column when a target column was selected. -/
def updateTask : List TaskCard → String → String → Option Nat → List TaskCard
  | [], _, _, _ => []
  | c :: t, tid, cls, col =>
      if c.id = tid then { c with cls := cls, column := col.getD c.column } :: t
      else c :: updateTask t tid cls col

/-- `handleTaskUpdate(data)`: if a card with `data-task-id = task_id`
exists, rewrite its class and move it to the column the status selects
(no move for an unknown status); otherwise create a new card. -/
def handleTaskUpdate (m : Msg) (vm : VM) : VM :=
  let tid := optStr m.task_id
  match findTask vm.tasks tid with
  | some _ =>
      { vm with tasks :=
          (updateTask vm.tasks tid ("task-card " ++ optStr m.status)
            (statusColumnOpt m.status)) }
  | none => { vm with tasks := vm.tasks ++ [createTaskCard (msgTaskData m)] }

/-- `handlePipelineUpdate(data)`'s icon choice (the source's checkmark,
arrows and circle glyphs). -/
def stageIcon : Option String → String
  | some "completed" => "✓"
  | some "running" => "⟳"
  | some "failed" => "✗"
  | _ => "○"

/-- `handlePipelineUpdate(data)`: if a `[data-stage=stage]` element
exists, rewrite its class and icon; otherwise nothing. -/
def handlePipelineUpdate (m : Msg) (vm : VM) : VM :=
  let st := optStr m.stage
  match lookupKey vm.stages st with
  | some _ =>
      { vm with stages :=
          (updateKey vm.stages st
            (fun _ => { cls := "pipeline-stage " ++ optStr m.status
                        icon := stageIcon m.status })) }
  | none => vm

/-- `WebSocket.readyState`.  `opened` is the constant `OPEN`. -/
inductive ReadyState where
  | connecting : ReadyState
  | opened : ReadyState
  | closing : ReadyState
  | closed : ReadyState
  deriving DecidableEq

/-- The two messages the client sends. -/
inductive OutMsg where
  | ping : OutMsg
  | get_metrics : OutMsg
  deriving DecidableEq

/-- `this.maxReconnectAttempts` (constructor). -/
def maxReconnectAttempts : Nat := 10

/-- The client instance plus its observable effects.

* `wsState` — the `readyState` of `this.ws` (`none` before the first
  `connect()`).  The model tracks the most recently created socket, the
  one all of the source's scenarios interact with.
* `reconnectAttempts`, `isConnected` — the fields of the same name.
* `pingActive` — the `pingInterval` timer exists and has not been
  cleared.
* `reconnectPending` — a `setTimeout(() => this.connect(), 5000)`
  reconnect callback is armed and has not yet fired.
* `statusText` / `indicatorActive` — what `updateConnectionStatus`
  writes to the status DOM (`''`/inactive stands for the untouched
  initial markup).
* `vm` — the view model.
* `sent` — every frame passed to `this.ws.send`, in order.
* `logs` — every console line, in order. -/
structure Client where
  wsState : Option ReadyState
  reconnectAttempts : Nat
  isConnected : Bool
  pingActive : Bool
  reconnectPending : Bool
  statusText : String
  indicatorActive : Bool
  vm : VM
  sent : List OutMsg
  logs : List String
  deriving DecidableEq

/-- Append one console line. -/
def pushLog (c : Client) (s : String) : Client :=
  { c with logs := c.logs ++ [s] }

/-- `updateConnectionStatus(connected)`: indicator colour/class and the
status text ("System Online" / "Connecting..."). -/
def updateConnectionStatus (connected : Bool) (c : Client) : Client :=
  { c with indicatorActive := connected
           statusText := if connected then "System Online" else "Connecting..." }

/-- `send(data)`: serialises and sends only when the socket exists and
`readyState === WebSocket.OPEN`; otherwise warns. -/
def send (m : OutMsg) (c : Client) : Client :=
  if c.wsState = some ReadyState.opened then { c with sent := c.sent ++ [m] }
  else pushLog c "[WS] Cannot send message - connection not open"

/-- `connect()`: logs and allocates a fresh socket (readyState
CONNECTING). -/
def connect (c : Client) : Client :=
  { pushLog c "[WS] Connecting to ws://localhost:8765..." with
      wsState := some ReadyState.connecting }

/-- The `ws.onopen` handler body (runs once the socket is OPEN):
`isConnected = true`, retry count reset, `onConnect()` sends
`get_metrics`, UI set to connected. -/
def onopenBody (c : Client) : Client :=
  let c := pushLog c "[WS] Connected to CrewAI WebSocket server"
  let c := { c with isConnected := true, reconnectAttempts := 0 }
  let c := send OutMsg.get_metrics c
  updateConnectionStatus true c

/-- The `ws.onclose` handler body (runs once the socket is CLOSED):
clears `isConnected`, shows disconnected UI, and — only while below the
attempt cap — increments the count and arms a reconnect timeout. -/
def oncloseBody (c : Client) : Client :=
  let c := pushLog c "[WS] Connection closed"
  let c := { c with isConnected := false }
  let c := updateConnectionStatus false c
  if c.reconnectAttempts < maxReconnectAttempts then
    { pushLog c "[WS] Reconnecting in 5s..." with
        reconnectAttempts := c.reconnectAttempts + 1
        reconnectPending := true }
  else c

/-- The `ws.onerror` handler body. -/
def onerrorBody (c : Client) : Client :=
  { pushLog c "[WS] WebSocket error" with isConnected := false }

/-- `disconnect()`: always clears the ping interval; closes the socket
when one exists (a close on an already-CLOSED socket is a no-op).
Nothing here touches a pending reconnect timeout. -/
def disconnect (c : Client) : Client :=
  let c := { c with pingActive := false }
  match c.wsState with
  | none => c
  | some ReadyState.closed => c
  | some _ => { c with wsState := some ReadyState.closing }

/-- `handleMessage(data)`: logs the type, dispatches on it.  Returns the
client state reached together with the message of an exception that
escaped the handler (`none` when it returned normally).  The only throw
site is the `metric_update` system branch: `this.updateSystemMetric` is
not defined anywhere on the class (only `updateSystemMetrics`), so the
call throws a `TypeError` before any view-model write. -/
def handleMessage (m : Msg) (c : Client) : Client × Option String :=
  let c := pushLog c ("[WS] Received: " ++ optStr m.type)
  match m.type with
  | some "initial" => ({ c with vm := handleInitialData m c.vm }, none)
  | some "metric_update" =>
      match m.agent_id with
      | some a => ({ c with vm := updateAgentMetric a (msgAgentMetrics m) c.vm }, none)
      | none => (c, some "TypeError: this.updateSystemMetric is not a function")
  | some "task_update" => ({ c with vm := handleTaskUpdate m c.vm }, none)
  | some "system_update" => ({ c with vm := handleSystemUpdate m c.vm }, none)
  | some "pipeline_update" => ({ c with vm := handlePipelineUpdate m c.vm }, none)
  | some "pong" => (c, none)
  | _ => (pushLog c ("[WS] Unknown message type: " ++ optStr m.type), none)

/-- The `ws.onmessage` handler: `JSON.parse` then `handleMessage`, the
whole body inside `try`/`catch`; a parse failure or an exception escaping
`handleMessage` is logged and the frame dropped. -/
def onmessage (f : Frame) (c : Client) : Client :=
  match f with
  | Frame.garbage _ => pushLog c "[WS] Error parsing message"
  | Frame.parsed m =>
      match handleMessage m c with
      | (c', none) => c'
      | (c', some e) => pushLog c' ("[WS] Error parsing message: " ++ e)

/-- The events that drive the client: the four socket callbacks, the two
timer callbacks, an explicit `disconnect()` call, and an inbound frame. -/
inductive Ev where
  | openEv : Ev
  | closeEv : Ev
  | errorEv : Ev
  | reconnectFire : Ev
  | pingTick : Ev
  | stopCall : Ev
  | msgEv : Frame → Ev
  deriving DecidableEq

/-- Whether an event can occur in a state: socket callbacks need a
socket in a suitable `readyState`, timer callbacks need their timer
armed, `disconnect()` can always be called. -/
def enabledB (c : Client) : Ev → Bool
  | Ev.openEv => c.wsState = some ReadyState.connecting
  | Ev.closeEv =>
      match c.wsState with
      | some ReadyState.closed => false
      | some _ => true
      | none => false
  | Ev.errorEv =>
      match c.wsState with
      | some ReadyState.closed => false
      | some _ => true
      | none => false
  | Ev.reconnectFire => c.reconnectPending
  | Ev.pingTick => c.pingActive
  | Ev.stopCall => true
  | Ev.msgEv _ => c.wsState = some ReadyState.opened

/-- One step: the browser first moves `readyState`, then runs the
registered handler; a firing reconnect timeout is consumed and runs
`connect()`; a ping tick sends only while `isConnected`. -/
def step (c : Client) : Ev → Client
  | Ev.openEv => onopenBody { c with wsState := some ReadyState.opened }
  | Ev.closeEv => oncloseBody { c with wsState := some ReadyState.closed }
  | Ev.errorEv => onerrorBody c
  | Ev.reconnectFire => connect { c with reconnectPending := false }
  | Ev.pingTick => if c.isConnected then send OutMsg.ping c else c
  | Ev.stopCall => disconnect c
  | Ev.msgEv f => onmessage f c

/-- Run a list of events. -/
def run (c : Client) (evs : List Ev) : Client :=
  evs.foldl step c

/-- Every event of the list is enabled when its turn comes. -/
def validRun (c : Client) : List Ev → Bool
  | [] => true
  | e :: t => enabledB c e && validRun (step c e) t

/-- The constructor: fields initialised, `connect()` called, ping
interval installed.  The status DOM starts at the untouched markup. -/
def initClient : Client :=
  let c : Client :=
    { wsState := none
      reconnectAttempts := 0
      isConnected := false
      pingActive := false
      reconnectPending := false
      statusText := ""
      indicatorActive := false
      vm := { agents := [], tasks := [], stages := [],
              sys := { tcr := Text.init, velocity := Text.init,
                       totalAgents := Text.init } }
      sent := []
      logs := [] }
  let c := connect c
  { c with pingActive := true }

/-- The message types `handleMessage`'s switch recognizes. -/
def recognizedB : Option String → Bool
  | some "initial" => true
  | some "metric_update" => true
  | some "task_update" => true
  | some "system_update" => true
  | some "pipeline_update" => true
  | some "pong" => true
  | _ => false

/-! ### Association-list lemmas used by the claim proofs -/

theorem lookupKey_append {α : Type} (l l2 : List (String × α)) (k : String) :
    lookupKey (l ++ l2) k =
      (match lookupKey l k with
       | some v => some v
       | none => lookupKey l2 k) := by
  induction l with
  | nil => simp [lookupKey]
  | cons hd tl ih =>
      obtain ⟨k', v⟩ := hd
      by_cases h : k' = k <;> simp [lookupKey, h, ih]

theorem lookupKey_isSome_updateKey {α : Type} (l : List (String × α))
    (k k' : String) (f : α → α) :
    (lookupKey (updateKey l k' f) k).isSome = (lookupKey l k).isSome := by
  induction l with
  | nil => simp [lookupKey, updateKey]
  | cons hd tl ih =>
      obtain ⟨k0, v⟩ := hd
      by_cases h0 : k0 = k'
      · subst h0
        by_cases h1 : k0 = k <;> simp [lookupKey, updateKey, h1]
      · by_cases h1 : k0 = k
        · subst h1
          simp [lookupKey, updateKey, h0]
        · simp [lookupKey, updateKey, h0, h1, ih]

theorem updateKey_append_single {α : Type} (l : List (String × α)) (k : String)
    (v : α) (f : α → α) (h : lookupKey l k = none) :
    updateKey (l ++ [(k, v)]) k f = l ++ [(k, f v)] := by
  induction l with
  | nil => simp [updateKey]
  | cons hd tl ih =>
      obtain ⟨k0, v0⟩ := hd
      simp only [lookupKey] at h
      by_cases h0 : k0 = k
      · simp [h0] at h
      · simp only [h0, if_false] at h
        simp [updateKey, h0, ih h]

theorem lookupKey_updateKey_self {α : Type} (l : List (String × α)) (k : String)
    (f : α → α) :
    lookupKey (updateKey l k f) k = (lookupKey l k).map f := by
  induction l with
  | nil => simp [lookupKey, updateKey]
  | cons hd tl ih =>
      obtain ⟨k0, v0⟩ := hd
      by_cases h0 : k0 = k <;> simp [lookupKey, updateKey, h0, ih]

theorem updateKey_idem {α : Type} (l : List (String × α)) (k : String)
    (f : α → α) (hf : ∀ x, f (f x) = f x) :
    updateKey (updateKey l k f) k f = updateKey l k f := by
  induction l with
  | nil => simp [updateKey]
  | cons hd tl ih =>
      obtain ⟨k0, v0⟩ := hd
      by_cases h0 : k0 = k <;> simp [updateKey, h0, hf, ih]

/-- Applying `updateAgentMetric` twice with the same arguments is the
same as applying it once. -/
theorem updateAgentMetric_idem (a : String) (mt : AgentMetrics) (vm : VM) :
    updateAgentMetric a mt (updateAgentMetric a mt vm) = updateAgentMetric a mt vm := by
  cases h : lookupKey vm.agents a with
  | none =>
      cases hq : mt.task_completion_rate with
      | none =>
          simp [updateAgentMetric, h, lookupKey_append, lookupKey, hq]
      | some q =>
          simp only [updateAgentMetric, h, lookupKey_append, lookupKey, if_pos rfl, hq]
          rw [updateKey_append_single _ _ _ _ h]
          simp [createAgentCard, hq]
  | some c0 =>
      cases hq : mt.task_completion_rate with
      | none => simp [updateAgentMetric, h, hq]
      | some q =>
          have hmap :
              lookupKey (updateKey vm.agents a (fun c => { c with tcr := q })) a
                = some { c0 with tcr := q } := by
            rw [lookupKey_updateKey_self, h]
            rfl
          simp only [updateAgentMetric, h, hq, hmap]
          rw [updateKey_idem]
          intro x
          rfl

/-- Every agent key present before an `updateAgentMetric` is present
afterwards (the operation is an upsert). -/
theorem updateAgentMetric_preserves (a : String) (mt : AgentMetrics) (vm : VM)
    (k : String) (h : (lookupKey vm.agents k).isSome = true) :
    (lookupKey (updateAgentMetric a mt vm).agents k).isSome = true := by
  cases h0 : lookupKey vm.agents a with
  | none =>
      simp only [updateAgentMetric, h0, lookupKey_append]
      cases h1 : lookupKey vm.agents k with
      | none => rw [h1] at h; simp at h
      | some v => simp
  | some c0 =>
      cases hq : mt.task_completion_rate with
      | none => simp [updateAgentMetric, h0, hq, h]
      | some q => simp [updateAgentMetric, h0, hq, lookupKey_isSome_updateKey, h]

/-- `updateAgentMetrics` (the `initial` agents pass) preserves every
existing agent key: it merges, never clears. -/
theorem updateAgentMetrics_preserves (ags : List (String × AgentMetrics))
    (vm : VM) (k : String) (h : (lookupKey vm.agents k).isSome = true) :
    (lookupKey (updateAgentMetrics ags vm).agents k).isSome = true := by
  induction ags generalizing vm with
  | nil => simpa [updateAgentMetrics] using h
  | cons hd tl ih =>
      simp only [updateAgentMetrics, List.foldl_cons]
      exact ih _ (updateAgentMetric_preserves hd.1 hd.2 vm k h)

/-- `updateSystemMetrics` writes only the system metric texts. -/
theorem updateSystemMetrics_agents (entries : List (String × ℚ)) (vm : VM) :
    (updateSystemMetrics entries vm).agents = vm.agents := by
  induction entries generalizing vm with
  | nil => rfl
  | cons hd tl ih =>
      simp only [updateSystemMetrics, List.foldl_cons] at ih ⊢
      rw [ih]
      split <;> [rfl; skip]
      split <;> [rfl; skip]
      split <;> rfl

/-- `handleMessage` on an unrecognized type: logs the type, hits the
default branch's diagnostic, changes nothing else, throws nothing. -/
theorem handleMessage_unknown (m : Msg) (c : Client)
    (h : recognizedB m.type = false) :
    handleMessage m c
      = (pushLog (pushLog c ("[WS] Received: " ++ optStr m.type))
          ("[WS] Unknown message type: " ++ optStr m.type), none) := by
  unfold handleMessage
  split <;> simp_all [recognizedB]

/-! ### Concrete fixtures used by witnesses and counterexamples -/

/-- A store already holding one agent, one task and one pipeline stage. -/
def vmX : VM :=
  { agents := [("AGT-2", { tcr := 50, health := "warning" })]
    tasks := [{ id := "T9", cls := "task-card done", column := 3 }]
    stages := [("build", { cls := "pipeline-stage running", icon := "⟳" })]
    sys := { tcr := Text.init, velocity := Text.plain 5, totalAgents := Text.init } }

/-- An `initial` event carrying only agent AGT-1 and an empty task list. -/
def mInit : Msg :=
  { type := some "initial"
    agents := some [("AGT-1", { task_completion_rate := some 90 })]
    recent_tasks := some [] }

/-- An agent-scoped `metric_update` event. -/
def mUpd : Msg :=
  { type := some "metric_update"
    agent_id := some "AGT-1"
    task_completion_rate := some 90 }

/-- A well-formed `task_update` event. -/
def mTask : Msg :=
  { type := some "task_update", task_id := some "T1", status := some "done" }

/-- A `system_update` event carrying `system_tcr` and `total_agents` but
not `system_velocity`. -/
def mSys : Msg :=
  { type := some "system_update", system_tcr := some 90, total_agents := some 12 }

/-- Ten full failure cycles: transport close, backoff timer fires. -/
def capRunEvs : List Ev :=
  List.flatten (List.replicate 10 [Ev.closeEv, Ev.reconnectFire])

/-- The client after ten consecutive failed connection attempts:
`reconnectAttempts` is at the cap and another connect is in flight. -/
def capClient : Client := run initClient capRunEvs

/-! ### Claims -/

/-- Claim C6: for every valid `system_update` event carrying any subset
of `system_tcr`, `system_velocity`, `total_agents`, applying the event
changes exactly the fields present in the event — each absent field, and
all other view-model state, keeps its prior value. -/
theorem system_update_partial_fields (vm : VM) (m : Msg) :
    (m.system_tcr = none → (handleSystemUpdate m vm).sys.tcr = vm.sys.tcr) ∧
    (∀ q, m.system_tcr = some q →
        (handleSystemUpdate m vm).sys.tcr = Text.fixed1pct q) ∧
    (m.system_velocity = none →
        (handleSystemUpdate m vm).sys.velocity = vm.sys.velocity) ∧
    (∀ q, m.system_velocity = some q →
        (handleSystemUpdate m vm).sys.velocity = Text.rounded q) ∧
    (m.total_agents = none →
        (handleSystemUpdate m vm).sys.totalAgents = vm.sys.totalAgents) ∧
    (∀ q, m.total_agents = some q →
        (handleSystemUpdate m vm).sys.totalAgents = Text.plain q) ∧
    (handleSystemUpdate m vm).agents = vm.agents ∧
    (handleSystemUpdate m vm).tasks = vm.tasks ∧
    (handleSystemUpdate m vm).stages = vm.stages := by
  cases h1 : m.system_tcr <;> cases h2 : m.system_velocity <;>
    cases h3 : m.total_agents <;> simp [handleSystemUpdate, h1, h2, h3]

/-- Witness for `system_update_partial_fields`: the concrete event `mSys`
(tcr and agent count present, velocity absent) applied to `vmX` writes
the tcr text, leaves the velocity text at its prior value and leaves the
agents map alone. -/
theorem system_update_partial_fields_witness :
    (handleSystemUpdate mSys vmX).sys.tcr = Text.fixed1pct 90 ∧
    (handleSystemUpdate mSys vmX).sys.velocity = vmX.sys.velocity ∧
    (handleSystemUpdate mSys vmX).agents = vmX.agents :=
  ⟨(system_update_partial_fields vmX mSys).2.1 90 rfl,
   (system_update_partial_fields vmX mSys).2.2.1 rfl,
   (system_update_partial_fields vmX mSys).2.2.2.2.2.2.1⟩

/-- Claim C7: a malformed inbound frame — unparseable text, or a parsed
object whose kind is unrecognized — never lets an exception escape the
message handler and never mutates the view model; the frame is dropped,
with the drop recorded on the console (the only drop accounting the
client performs). -/
theorem malformed_frames_dropped_safely (c : Client) (raw : String) (m : Msg)
    (h : recognizedB m.type = false) :
    onmessage (Frame.garbage raw) c = pushLog c "[WS] Error parsing message" ∧
    (onmessage (Frame.garbage raw) c).vm = c.vm ∧
    (handleMessage m c).2 = none ∧
    (onmessage (Frame.parsed m) c).vm = c.vm ∧
    (onmessage (Frame.parsed m) c).logs
      = c.logs ++ ["[WS] Received: " ++ optStr m.type,
          "[WS] Unknown message type: " ++ optStr m.type] := by
  refine ⟨rfl, rfl, ?_, ?_, ?_⟩ <;>
    simp [handleMessage_unknown m c h, onmessage, pushLog]

/-- Witness for `malformed_frames_dropped_safely` at a frame of kind
"bogus": no escape, no view-model change. -/
theorem malformed_frames_dropped_safely_witness :
    (handleMessage ({ type := some "bogus" } : Msg) initClient).2 = none ∧
    (onmessage (Frame.parsed ({ type := some "bogus" } : Msg)) initClient).vm
      = initClient.vm :=
  ⟨(malformed_frames_dropped_safely initClient "not json"
      ({ type := some "bogus" } : Msg) (by decide)).2.2.1,
   (malformed_frames_dropped_safely initClient "not json"
      ({ type := some "bogus" } : Msg) (by decide)).2.2.2.1⟩

/-- Claim C8: applying the same `metric_update` event twice in
succession yields the same final store state as applying it once
(idempotence; the log of console lines is not part of the store). -/
theorem metric_update_idempotent (c : Client) (m : Msg)
    (h : m.type = some "metric_update") :
    (onmessage (Frame.parsed m) (onmessage (Frame.parsed m) c)).vm
      = (onmessage (Frame.parsed m) c).vm := by
  cases ha : m.agent_id with
  | none => simp [onmessage, handleMessage, h, ha, pushLog]
  | some a => simp [onmessage, handleMessage, h, ha, pushLog, updateAgentMetric_idem]

/-- Witness for `metric_update_idempotent` at the concrete event `mUpd`
and the fresh client. -/
theorem metric_update_idempotent_witness :
    (onmessage (Frame.parsed mUpd) (onmessage (Frame.parsed mUpd) initClient)).vm
      = (onmessage (Frame.parsed mUpd) initClient).vm :=
  metric_update_idempotent initClient mUpd rfl

/-- Claim C9: on every transport-open event the session becomes Open,
the retry count resets to zero, the `get_metrics` initial-state request
is sent, and the connected status is shown. -/
theorem onopen_resets_and_requests_metrics (c : Client)
    (_h : enabledB c Ev.openEv = true) :
    (step c Ev.openEv).wsState = some ReadyState.opened ∧
    (step c Ev.openEv).isConnected = true ∧
    (step c Ev.openEv).reconnectAttempts = 0 ∧
    (step c Ev.openEv).sent = c.sent ++ [OutMsg.get_metrics] ∧
    (step c Ev.openEv).statusText = "System Online" ∧
    (step c Ev.openEv).indicatorActive = true := by
  simp [step, onopenBody, send, updateConnectionStatus, pushLog]

/-- Witness for `onopen_resets_and_requests_metrics` at the fresh
(connecting) client. -/
theorem onopen_resets_and_requests_metrics_witness :
    (step initClient Ev.openEv).isConnected = true ∧
    (step initClient Ev.openEv).sent = initClient.sent ++ [OutMsg.get_metrics] :=
  ⟨(onopen_resets_and_requests_metrics initClient (by decide)).2.1,
   (onopen_resets_and_requests_metrics initClient (by decide)).2.2.2.1⟩

/-- Claim C10: a `metric_update` event without an `agent_id` takes the
system-metric branch, which calls `this.updateSystemMetric` — a method
that does not exist on the class — so a TypeError escapes
`handleMessage`, is caught by `ws.onmessage`'s try/catch, and the event
is dropped having mutated no view-model state. -/
theorem metric_update_no_agent_id_dropped (c : Client) (m : Msg)
    (h1 : m.type = some "metric_update") (h2 : m.agent_id = none) :
    (handleMessage m c).2
      = some "TypeError: this.updateSystemMetric is not a function" ∧
    (onmessage (Frame.parsed m) c).vm = c.vm ∧
    (onmessage (Frame.parsed m) c).sent = c.sent ∧
    (onmessage (Frame.parsed m) c).logs
      = c.logs ++ ["[WS] Received: metric_update",
          "[WS] Error parsing message: TypeError: this.updateSystemMetric is not a function"] := by
  simp [onmessage, handleMessage, h1, h2, pushLog, optStr]

/-- Witness for `metric_update_no_agent_id_dropped` at a concrete
system-level metric event. -/
theorem metric_update_no_agent_id_dropped_witness :
    (handleMessage ({ type := some "metric_update", system_tcr := some 5 } : Msg)
        initClient).2
      = some "TypeError: this.updateSystemMetric is not a function" ∧
    (onmessage (Frame.parsed
        ({ type := some "metric_update", system_tcr := some 5 } : Msg))
        initClient).vm = initClient.vm :=
  ⟨(metric_update_no_agent_id_dropped initClient
      ({ type := some "metric_update", system_tcr := some 5 } : Msg) rfl rfl).1,
   (metric_update_no_agent_id_dropped initClient
      ({ type := some "metric_update", system_tcr := some 5 } : Msg) rfl rfl).2.1⟩

/-- Claim C1 counterexample: from the fresh (Connecting) client the
transport fails once, arming the 5s reconnect timer; then `stop()` is
called.  Every event of the trace is enabled when it occurs.  After
`stop()` the reconnect timer is still armed (`reconnectPending = true` —
`disconnect()` clears only the ping interval), and when the backoff
interval elapses the armed callback runs `connect()`: the state leaves
Disconnected again.  This refutes both "cancels both timers before
returning" and "no further state change occurs even after the backoff
interval would have elapsed". -/
theorem stop_then_reconnect_fires_cex :
    validRun initClient [Ev.closeEv, Ev.stopCall, Ev.reconnectFire] = true ∧
    (run initClient [Ev.closeEv, Ev.stopCall]).pingActive = false ∧
    (run initClient [Ev.closeEv, Ev.stopCall]).reconnectPending = true ∧
    (run initClient [Ev.closeEv, Ev.stopCall]).wsState = some ReadyState.closed ∧
    (run initClient [Ev.closeEv, Ev.stopCall, Ev.reconnectFire]).wsState
      = some ReadyState.connecting := by
  decide

/-- Claim C1 (amended): calling `stop()` is safe in any state and
idempotent — it always cancels the liveness ping interval and closes any
non-closed transport, and an immediate second call changes nothing
more; but it does not cancel a pending reconnect backoff timer: the
timer stays armed across `stop()` and, when it fires, `connect()` runs
and the client re-enters Connecting. -/
theorem stop_cancels_ping_but_not_reconnect (c : Client) :
    (step c Ev.stopCall).pingActive = false ∧
    (step c Ev.stopCall).reconnectPending = c.reconnectPending ∧
    step (step c Ev.stopCall) Ev.stopCall = step c Ev.stopCall ∧
    (∀ r, c.wsState = some r → r ≠ ReadyState.closed →
        (step c Ev.stopCall).wsState = some ReadyState.closing) ∧
    (c.wsState = some ReadyState.closed →
        (step c Ev.stopCall).wsState = some ReadyState.closed) ∧
    (c.wsState = none → (step c Ev.stopCall).wsState = none) ∧
    (c.reconnectPending = true →
        enabledB (step c Ev.stopCall) Ev.reconnectFire = true ∧
        (step (step c Ev.stopCall) Ev.reconnectFire).wsState
          = some ReadyState.connecting) := by
  cases hw : c.wsState with
  | none => simp [step, disconnect, enabledB, connect, pushLog, hw]
  | some r => cases r <;> simp [step, disconnect, enabledB, connect, pushLog, hw]

/-- Witness for `stop_cancels_ping_but_not_reconnect`, at the fresh
client (transport Connecting: `stop()` closes it) and at the client
that has just experienced one transport failure (reconnect timer armed:
it survives `stop()` and reconnects when it fires). -/
theorem stop_cancels_ping_but_not_reconnect_witness :
    (step initClient Ev.stopCall).pingActive = false ∧
    (step initClient Ev.stopCall).wsState = some ReadyState.closing ∧
    (step (run initClient [Ev.closeEv]) Ev.stopCall).reconnectPending = true ∧
    (step (step (run initClient [Ev.closeEv]) Ev.stopCall)
        Ev.reconnectFire).wsState = some ReadyState.connecting :=
  ⟨(stop_cancels_ping_but_not_reconnect initClient).1,
   (stop_cancels_ping_but_not_reconnect initClient).2.2.2.1
      ReadyState.connecting rfl (by decide),
   Eq.trans
     ((stop_cancels_ping_but_not_reconnect (run initClient [Ev.closeEv])).2.1)
     (by decide),
   ((stop_cancels_ping_but_not_reconnect
        (run initClient [Ev.closeEv])).2.2.2.2.2.2 (by decide)).2⟩

/-- Claim C2 counterexample: a run of ten failed connection attempts
(close, backoff fires, ... ) followed by the cap-hitting close, every
event enabled when it occurs.  At the cap the manager indeed arms no
further reconnect timer, but it surfaces no terminal "unavailable"
status: the whole observer-visible status surface (indicator off, text
"Connecting...") after the cap-hitting close is exactly the surface
after the very first failure, which the claim itself treats as still
attempting. -/
theorem retry_cap_no_unavailable_status_cex :
    validRun initClient (capRunEvs ++ [Ev.closeEv]) = true ∧
    (run initClient (capRunEvs ++ [Ev.closeEv])).reconnectAttempts
      = maxReconnectAttempts ∧
    (run initClient (capRunEvs ++ [Ev.closeEv])).reconnectPending = false ∧
    (run initClient (capRunEvs ++ [Ev.closeEv])).statusText = "Connecting..." ∧
    (run initClient (capRunEvs ++ [Ev.closeEv])).statusText
      = (run initClient [Ev.closeEv]).statusText ∧
    (run initClient (capRunEvs ++ [Ev.closeEv])).indicatorActive
      = (run initClient [Ev.closeEv]).indicatorActive := by
  decide

/-- Claim C2 (amended): every transport close below the retry cap arms a
reconnect timer and increments the attempt count (the manager keeps
attempting), and a close at the cap arms no new reconnect timer and
leaves the count unchanged; but in both cases the observer-visible
status is the same disconnected presentation — text "Connecting...",
indicator off — so no distinct terminal "unavailable" status is
surfaced at the cap. -/
theorem retry_cap_stops_timers_without_status (c : Client) :
    (step c Ev.closeEv).statusText = "Connecting..." ∧
    (step c Ev.closeEv).indicatorActive = false ∧
    (c.reconnectAttempts < maxReconnectAttempts →
        (step c Ev.closeEv).reconnectPending = true ∧
        (step c Ev.closeEv).reconnectAttempts = c.reconnectAttempts + 1) ∧
    (maxReconnectAttempts ≤ c.reconnectAttempts →
        (step c Ev.closeEv).reconnectPending = c.reconnectPending ∧
        (step c Ev.closeEv).reconnectAttempts = c.reconnectAttempts) := by
  by_cases hc : c.reconnectAttempts < maxReconnectAttempts
  · refine ⟨?_, ?_, fun _ => ⟨?_, ?_⟩,
      fun hge => absurd hc (Nat.not_lt.mpr hge)⟩ <;>
      simp [step, oncloseBody, updateConnectionStatus, pushLog, hc]
  · refine ⟨?_, ?_, fun hlt => absurd hlt hc, fun _ => ⟨?_, ?_⟩⟩ <;>
      simp [step, oncloseBody, updateConnectionStatus, pushLog, hc]

/-- Witness for `retry_cap_stops_timers_without_status`: below the cap
(fresh client) a close arms the timer; at the cap (`capClient`, attempts
= 10) a close arms nothing new. -/
theorem retry_cap_stops_timers_without_status_witness :
    (step initClient Ev.closeEv).reconnectPending = true ∧
    (step capClient Ev.closeEv).reconnectPending = capClient.reconnectPending ∧
    (step capClient Ev.closeEv).reconnectAttempts = capClient.reconnectAttempts :=
  ⟨((retry_cap_stops_timers_without_status initClient).2.2.1 (by decide)).1,
   ((retry_cap_stops_timers_without_status capClient).2.2.2 (by decide)).1,
   ((retry_cap_stops_timers_without_status capClient).2.2.2 (by decide)).2⟩

/-- Claim C3 counterexample: the store `vmX` holds agent "AGT-2"; the
`initial` event `mInit` carries only agent "AGT-1" (and an empty task
list).  The claim requires the agents map to afterwards contain exactly
the event's entries — "AGT-2" must be gone — but after
`handleInitialData` the stale "AGT-2" entry is still present: the agents
pass is a per-key upsert, not a replace.  (The tasks list, by contrast,
really is fully replaced: it ends empty.) -/
theorem initial_keeps_stale_agent_cex :
    lookupKey [("AGT-1", ({ task_completion_rate := some 90 } : AgentMetrics))]
        "AGT-2" = none ∧
    (lookupKey (handleInitialData mInit vmX).agents "AGT-2").isSome = true ∧
    (handleInitialData mInit vmX).tasks = [] := by
  decide

/-- Claim C3 (amended): applying an `initial` event fully replaces the
tasks list — every previously stored task card is removed and exactly
the event's entries are created — but the agents map is merged by
per-key upsert: every agent key present before application is still
present afterwards, so stored agents absent from the event are not
removed. -/
theorem initial_replaces_tasks_upserts_agents (vm : VM) (m : Msg)
    (ts : List TaskData) (hts : m.recent_tasks = some ts) :
    (handleInitialData m vm).tasks = ts.map createTaskCard ∧
    (∀ k, (lookupKey vm.agents k).isSome = true →
        (lookupKey (handleInitialData m vm).agents k).isSome = true) := by
  have h1 : ((match m.system_metrics with
      | some entries => updateSystemMetrics entries vm
      | none => vm) : VM).agents = vm.agents := by
    cases m.system_metrics <;> simp [updateSystemMetrics_agents]
  constructor
  · simp [handleInitialData, hts, updateRecentTasks]
  · intro k hk
    cases hag : m.agents with
    | none =>
        simp only [handleInitialData, hts, updateRecentTasks, hag]
        rw [h1]
        exact hk
    | some ags =>
        simp only [handleInitialData, hts, updateRecentTasks, hag]
        apply updateAgentMetrics_preserves
        rw [h1]
        exact hk

/-- Witness for `initial_replaces_tasks_upserts_agents` at `mInit` and
the populated store `vmX`. -/
theorem initial_replaces_tasks_upserts_agents_witness :
    (handleInitialData mInit vmX).tasks = ([] : List TaskData).map createTaskCard ∧
    (lookupKey (handleInitialData mInit vmX).agents "AGT-2").isSome = true :=
  ⟨(initial_replaces_tasks_upserts_agents vmX mInit [] rfl).1,
   (initial_replaces_tasks_upserts_agents vmX mInit [] rfl).2 "AGT-2" (by decide)⟩

/-- Claim C4 counterexample: with the session Open, a `pong` frame is
processed.  The resulting client is exactly the prior client plus one
console line — every session field (including everything that could
encode a liveness timestamp) is unchanged, because the `pong` branch of
`handleMessage` is empty and the client carries no last-liveness-ack
timestamp at all.  This refutes "receipt of the matching acknowledgment
event (pong) updates the session's last-liveness-ack timestamp". -/
theorem pong_updates_nothing_cex :
    onmessage (Frame.parsed ({ type := some "pong" } : Msg))
        (run initClient [Ev.openEv])
      = pushLog (run initClient [Ev.openEv]) "[WS] Received: pong" := by
  decide

/-- Claim C4 (amended): while the client is connected the 30-second
interval timer sends a `ping` liveness probe; the matching `pong` reply
is recognized by the dispatcher but performs no state update — the
session tracks no last-liveness-ack timestamp and the pong branch is a
no-op apart from the routine console line. -/
theorem ping_sent_pong_ignored (c : Client)
    (h1 : c.isConnected = true) (h2 : c.wsState = some ReadyState.opened) :
    step c Ev.pingTick = { c with sent := c.sent ++ [OutMsg.ping] } ∧
    (∀ m : Msg, m.type = some "pong" →
        onmessage (Frame.parsed m) c = pushLog c "[WS] Received: pong") := by
  constructor
  · simp [step, h1, send, h2]
  · intro m hm
    simp [onmessage, handleMessage, hm, optStr]

/-- Witness for `ping_sent_pong_ignored` at the open client and a pong
frame carrying an extra ignored field. -/
theorem ping_sent_pong_ignored_witness :
    step (run initClient [Ev.openEv]) Ev.pingTick
      = { (run initClient [Ev.openEv]) with
            sent := (run initClient [Ev.openEv]).sent ++ [OutMsg.ping] } ∧
    onmessage (Frame.parsed ({ type := some "pong", agent_id := some "x" } : Msg))
        (run initClient [Ev.openEv])
      = pushLog (run initClient [Ev.openEv]) "[WS] Received: pong" :=
  ⟨(ping_sent_pong_ignored (run initClient [Ev.openEv]) (by decide) (by decide)).1,
   (ping_sent_pong_ignored (run initClient [Ev.openEv]) (by decide) (by decide)).2
      ({ type := some "pong", agent_id := some "x" } : Msg) rfl⟩

/-- Claim C5 counterexample: the parsed frame of kind `task_update` that
lacks every kind-specific required field (`task_id`, `status`) is not
rejected: the only console line is the routine "Received" log (no
DecodeError-style diagnostic), and the frame is dispatched to the task
handler, which mutates the store — it creates a task card whose id and
class interpolate JS `undefined`. -/
theorem task_update_missing_fields_processed_cex :
    (onmessage (Frame.parsed ({ type := some "task_update" } : Msg))
        (run initClient [Ev.openEv])).vm.tasks
      = [{ id := "undefined", cls := "task-card undefined", column := 0 }] ∧
    (run initClient [Ev.openEv]).vm.tasks = [] ∧
    (onmessage (Frame.parsed ({ type := some "task_update" } : Msg))
        (run initClient [Ev.openEv])).logs
      = (run initClient [Ev.openEv]).logs ++ ["[WS] Received: task_update"] := by
  decide

/-- Claim C5 (amended): inbound-frame validation checks only that the
frame parses as JSON and, at dispatch, that its `type` discriminator is
recognized: unparseable frames and unrecognized kinds are logged and
dropped without touching the store, but kind-specific required fields
are never validated and no DecodeError value carrying the raw fragment
and reason exists — a frame with a recognized kind is handed to its
handler as-is, whatever fields it is missing. -/
theorem decode_checks_only_parse_and_type (c : Client) (raw : String) (m : Msg) :
    (onmessage (Frame.garbage raw) c).vm = c.vm ∧
    (recognizedB m.type = false → (onmessage (Frame.parsed m) c).vm = c.vm) ∧
    (m.type = some "task_update" →
        (onmessage (Frame.parsed m) c).vm = handleTaskUpdate m c.vm) := by
  refine ⟨rfl, fun h => ?_, fun hm => ?_⟩
  · simp [handleMessage_unknown m c h, onmessage, pushLog]
  · simp [onmessage, handleMessage, hm, pushLog]

/-- Witness for `decode_checks_only_parse_and_type`: garbage and an
unknown kind leave the store alone; the well-formed `task_update`
`mTask` goes straight to the task handler. -/
theorem decode_checks_only_parse_and_type_witness :
    (onmessage (Frame.garbage "not json") initClient).vm = initClient.vm ∧
    (onmessage (Frame.parsed ({ type := some "mystery" } : Msg)) initClient).vm
      = initClient.vm ∧
    (onmessage (Frame.parsed mTask) initClient).vm
      = handleTaskUpdate mTask initClient.vm :=
  ⟨(decode_checks_only_parse_and_type initClient "not json" mTask).1,
   (decode_checks_only_parse_and_type initClient "not json"
      ({ type := some "mystery" } : Msg)).2.1 (by decide),
   (decode_checks_only_parse_and_type initClient "not json" mTask).2.2 rfl⟩

end WSClient
